import Mathlib

/-!
Shallow embedding of the `mlutils` training utilities and its torch/jax
backends, together with theorems checking the repository's specification
against the code.

Modelling conventions:
* Python `int` is `Int`; Python `%` is `Int.fmod` (sign of the divisor),
  guarded by an explicit `ZeroDivisionError`.
* `pathlib.Path` is a list of path segments (`PyPath`); `p / s` is
  `p ++ [s]`.
* Side effects that the claims talk about (garbage collection, waiting on
  a future, starting an asynchronous save, `dcp.load`, `mkdir`, logging)
  are recorded in an explicit trace of `Effect`s, in program order.
* Python exceptions are `Except PyErr`.
* Third-party behaviour (tomllib, argparse, torch, jax) enters only as
  inputs or opaque effect payloads; the definitions below translate the
  repository's own code.
-/

/-- Python exceptions raised by the code under study. -/
inductive PyErr where
  | attributeError
  | assertionError
  | valueError (msg : String)
  | zeroDivisionError
  deriving DecidableEq, Repr

/-- A `pathlib.Path`, modelled as its list of segments. -/
abbrev PyPath := List String

/-- Python values stored in a config dict: atoms (ints, strings, booleans,
as produced by tomllib or `ast.literal_eval`) and nested dicts.  A dict is
an insertion-ordered association list, as in CPython. -/
inductive PyVal where
  | int (n : Int)
  | str (s : String)
  | bool (b : Bool)
  | dict (d : List (String × PyVal))

/-- A Python `dict[str, Any]`. -/
abbrev PyDict := List (String × PyVal)

/-- Python `d[k]` lookup (`k in d` is `(dictGet d k).isSome`). -/
def dictGet : PyDict → String → Option PyVal
  | [], _ => none
  | (k, w) :: rest, q => if k = q then some w else dictGet rest q

/-- Python `d[k] = v`: replace in place if the key exists, else append. -/
def dictSet : PyDict → String → PyVal → PyDict
  | [], q, v => [(q, v)]
  | (k, w) :: rest, q, v =>
    if k = q then (k, v) :: rest else (k, w) :: dictSet rest q v

/-- The value sitting at a (non-empty) dotted key path in a nested dict:
`getPath c [a, b]` is `c[a][b]` when `c[a]` is a dict holding `b`. -/
def getPath : PyDict → List String → Option PyVal
  | _, [] => none
  | c, [k] => dictGet c k
  | c, k :: rest =>
    match dictGet c k with
    | some (PyVal.dict d) => getPath d rest
    | _ => none

namespace mlutils

/-- One iteration of the merge loop of `load_config`
(src/mlutils/config.py lines 38-58): write `value` at the dotted key path
`keys` into `config`.  Depths 1-3 are handled; a non-dict value at an
inner key fails the `assert isinstance(..., dict)`; any other depth
raises `ValueError("Maximum key depth is 3.")`. -/
def mergeOne (config : PyDict) (keys : List String) (value : PyVal) :
    Except PyErr PyDict :=
  match keys with
  | [k0] => Except.ok (dictSet config k0 value)
  | [k0, k1] =>
    match dictGet config k0 with
    | some (PyVal.dict d) =>
      Except.ok (dictSet config k0 (PyVal.dict (dictSet d k1 value)))
    | some _ => Except.error PyErr.assertionError
    | none => Except.ok (dictSet config k0 (PyVal.dict [(k1, value)]))
  | [k0, k1, k2] =>
    match dictGet config k0 with
    | some (PyVal.dict d) =>
      match dictGet d k1 with
      | some (PyVal.dict e) =>
        Except.ok (dictSet config k0
          (PyVal.dict (dictSet d k1 (PyVal.dict (dictSet e k2 value)))))
      | some _ => Except.error PyErr.assertionError
      | none =>
        Except.ok (dictSet config k0
          (PyVal.dict (dictSet d k1 (PyVal.dict [(k2, value)]))))
    | some _ => Except.error PyErr.assertionError
    | none =>
      Except.ok (dictSet config k0
        (PyVal.dict [(k1, PyVal.dict [(k2, value)])]))
  | _ => Except.error (PyErr.valueError "Maximum key depth is 3.")

/-- The `for keys, value in args` loop of `load_config`: arguments are
merged left to right, and the first raising argument aborts the loop. -/
def mergeArgs (config : PyDict) : List (List String × PyVal) →
    Except PyErr PyDict
  | [] => Except.ok config
  | (keys, value) :: rest =>
    match mergeOne config keys value with
    | Except.ok c => mergeArgs c rest
    | Except.error e => Except.error e

/-- Python `zip(u[0::2], u[1::2])`: consecutive pairs, odd tail dropped. -/
def pairUp : List String → List (String × String)
  | a :: b :: rest => (a, b) :: pairUp rest
  | _ => []

/-- Python `s.split(sep)` for a one-character separator, computed on the
character list: split at every occurrence of `sep`, keeping empty pieces,
and `"".split(".")` is `[""]`.  The result is never the empty list. -/
def pySplit (sep : Char) (s : String) : List String :=
  (s.toList.splitOn sep).map (fun cs => String.mk cs)

/-- `load_config` (src/mlutils/config.py).  The third-party pieces are
inputs: `config` is the dict `tomllib.load` produced from the file named
by `--config_file` (or `{}` when the parser has no such argument),
`argsParsed` the `vars(args).items()` of `parse_known_args`, `uargs` the
unknown leftover tokens, and `pcs` is `parse_cmdline_string`
(`ast.literal_eval` with a string fallback).  Known argument keys and
`--`-stripped unknown keys are split on `"."` and merged into `config`. -/
def load_config (config : PyDict) (argsParsed : List (String × PyVal))
    (uargs : List String) (pcs : String → PyVal) : Except PyErr PyDict :=
  let args := argsParsed.map (fun kv => (pySplit '.' kv.1, kv.2))
  let us := (pairUp uargs).map
    (fun kv => (pySplit '.' (kv.1.drop 2), pcs kv.2))
  mergeArgs config (args ++ us)

end mlutils

/-- Which of the three container arguments of `CheckpointManager.__init__`
an entry of `self.states` refers to.  Python's dict holds references to
the container objects; the slot names the referenced argument. -/
inductive ContainerSlot where
  | model
  | optimizer
  | scheduler
  deriving DecidableEq, Repr

/-- The value `CheckpointManager._states_to_load` hands to `dcp.load`:
either the whole `self.states` dict, or (for `model_only=True`, never the
case in `load`) the model container's own state dict, an opaque torch
value marked here. -/
inductive StatesToLoad where
  | full (states : List (String × ContainerSlot))
  | modelStateDict
  deriving DecidableEq, Repr

/-- Observable side effects, recorded in program order. -/
inductive Effect where
  | gcDisable
  | gcCollect (generation : Int)
  | futureWait (fid : Nat)
  | asyncSave (checkpoint_id : PyPath) (fid : Nat)
  | dcpLoad (states : StatesToLoad) (checkpoint_id : PyPath)
  | mkdir (p : PyPath) (parents exist_ok : Bool)
  | logInfo
  deriving DecidableEq, Repr

/-- Python `a % b` on ints: `ZeroDivisionError` on `b = 0`, else the
remainder with the divisor's sign, which is `Int.fmod`. -/
def pyMod (a b : Int) : Except PyErr Int :=
  if b = 0 then Except.error PyErr.zeroDivisionError else Except.ok (Int.fmod a b)

namespace mlutils

/-- `GarbageCollector` (src/mlutils/utils.py): holds the configured
interval (annotated `float` in the source, but the stored value is the
`int` argument). -/
structure GarbageCollector where
  interval : Int
  deriving DecidableEq, Repr

/-- `GarbageCollector.__init__`: store the interval (default 1000) and
call `gc.disable()`. -/
def GarbageCollector.init (interval : Int) : GarbageCollector × List Effect :=
  ({ interval := interval }, [Effect.gcDisable])

/-- `GarbageCollector.collect`: `gc.collect(generation)` then a log line.
The Python default for `generation` is 1; callers below pass it
explicitly. -/
def GarbageCollector.collect (reason : String) (generation : Int) :
    List Effect :=
  [Effect.gcCollect generation, Effect.logInfo]

/-- `GarbageCollector.run(step)`: collect (generation defaulting to 1)
when `step % self.interval == 0`, else do nothing.  `%` raises
`ZeroDivisionError` when the interval is 0. -/
def GarbageCollector.run (g : GarbageCollector) (step : Int) :
    Except PyErr (List Effect) :=
  match pyMod step g.interval with
  | Except.error e => Except.error e
  | Except.ok r =>
    if r = 0 then Except.ok (GarbageCollector.collect "Periodic garbage collection." 1)
    else Except.ok []

end mlutils

namespace mlutils_torch

/-- A state-dict object, with an allocation identity (`oid`) so that
aliasing and `deepcopy` are observable, and its dict value. -/
structure SDObj where
  oid : Nat
  val : PyVal

/-- `copy.deepcopy`: a fresh object (the next allocation id) holding the
same value. -/
def deepcopy (ctr : Nat) (o : SDObj) : SDObj × Nat :=
  ({ oid := ctr, val := o.val }, ctr + 1)

/-- A `torch.optim.lr_scheduler.LRScheduler`, abstracted to the state
object it holds: `state_dict()` returns it, `load_state_dict(sd)` makes
the scheduler hold the passed object. -/
structure LRScheduler where
  held : SDObj

/-- Third-party `scheduler.state_dict()`. -/
def LRScheduler.state_dict (s : LRScheduler) : PyVal :=
  s.held.val

/-- Third-party `scheduler.load_state_dict(sd)`. -/
def LRScheduler.load_state_dict (_ : LRScheduler) (o : SDObj) : LRScheduler :=
  { held := o }

/-- `SchedulerContainer` (src/mlutils_torch/checkpoint.py lines 86-100). -/
structure SchedulerContainer where
  schedulers : List LRScheduler

/-- `SchedulerContainer.state_dict`: the first scheduler's state dict if
`len(self.schedulers) > 0`, else `{}`. -/
def SchedulerContainer.state_dict (c : SchedulerContainer) : PyVal :=
  match c.schedulers with
  | [] => PyVal.dict []
  | s :: _ => s.state_dict

/-- The `for scheduler in self.schedulers` loop of
`SchedulerContainer.load_state_dict`, threading the allocation counter of
`deepcopy` through the iterations. -/
def loadSchedLoop (sd : SDObj) : List LRScheduler → Nat →
    List LRScheduler × Nat
  | [], n => ([], n)
  | s :: rest, n =>
    let (o, n1) := deepcopy n sd
    let (rest1, n2) := loadSchedLoop sd rest n1
    (s.load_state_dict o :: rest1, n2)

/-- `SchedulerContainer.load_state_dict(state_dict)`: every scheduler is
given `deepcopy(state_dict)`.  `n` is the next fresh allocation id. -/
def SchedulerContainer.load_state_dict (c : SchedulerContainer) (sd : SDObj)
    (n : Nat) : SchedulerContainer × Nat :=
  let (ss, n1) := loadSchedLoop sd c.schedulers n
  ({ schedulers := ss }, n1)

/-- `CheckpointConfig` (src/mlutils_torch/checkpoint.py lines 103-106). -/
structure CheckpointConfig where
  folder_path : PyPath
  interval : Int
  model_only : Bool
  deriving DecidableEq, Repr

/-- `CheckpointManager`'s instance attributes.  Python objects only have
the attributes some code assigned; `__init__` assigns `folder_path`,
`interval`, `states`, `save_future` (and `process_group`, an opaque torch
handle not modelled).  No method ever assigns `folder`, yet
`_create_checkpoint_id` and `_find_load_step` read `self.folder`, so
`folder` is carried as an `Option` that stays `none` and whose `none`
read is an `AttributeError`.  `save_future` holds the id of the pending
future, `states` the bundled container dict. -/
structure CheckpointManager where
  folder_path : PyPath
  folder : Option PyPath
  interval : Int
  states : List (String × ContainerSlot)
  save_future : Option Nat
  deriving DecidableEq, Repr

/-- `CheckpointManager.__init__`: mkdir the configured folder (parents,
exist_ok), store the interval, bundle the containers into `self.states`
(only `"model"` when `config.model_only`), and clear `save_future`. -/
def CheckpointManager.init (config : CheckpointConfig) :
    CheckpointManager × List Effect :=
  ({ folder_path := config.folder_path
     folder := none
     interval := config.interval
     states :=
       if config.model_only then [("model", ContainerSlot.model)]
       else [("model", ContainerSlot.model),
             ("optimizer", ContainerSlot.optimizer),
             ("scheduler", ContainerSlot.scheduler)]
     save_future := none },
   [Effect.mkdir config.folder_path true true])

/-- `CheckpointManager._create_checkpoint_id(step)`:
`self.folder / f"step-{step}"`.  Reading `self.folder` raises
`AttributeError` because `__init__` assigns `self.folder_path` instead. -/
def CheckpointManager.create_checkpoint_id (self : CheckpointManager)
    (step : Int) : Except PyErr PyPath :=
  match self.folder with
  | none => Except.error PyErr.attributeError
  | some f => Except.ok (f ++ ["step-" ++ toString step])

/-- `CheckpointManager._async_wait`: if a save future is stored, wait on
its result and reset it to `None`. -/
def CheckpointManager.async_wait (self : CheckpointManager) :
    CheckpointManager × List Effect :=
  match self.save_future with
  | some f => ({ self with save_future := none }, [Effect.futureWait f])
  | none => (self, [])

/-- `CheckpointManager._states_to_load(model_only=False)`: the whole
`self.states` dict, or the model container's own state dict (an opaque
torch value) when `model_only`. -/
def CheckpointManager.states_to_load (self : CheckpointManager)
    (model_only : Bool) : StatesToLoad :=
  if model_only then StatesToLoad.modelStateDict
  else StatesToLoad.full self.states

/-- `CheckpointManager.dcp_save`: start `dcp.async_save` on the given
state dict and checkpoint id, returning the future (`fid` is the fresh
future id), optionally collecting garbage afterwards
(`enable_garbage_collection` defaults to `False` in Python). -/
def CheckpointManager.dcp_save (_ : CheckpointManager)
    (_ : List (String × ContainerSlot)) (checkpoint_id : PyPath)
    (enable_garbage_collection : Bool) (fid : Nat) : Nat × List Effect :=
  (fid,
   [Effect.asyncSave checkpoint_id fid] ++
     (if enable_garbage_collection then
        mlutils.GarbageCollector.collect "GC collection invoked by checkpointer." 1
      else []))

/-- `CheckpointManager.save(step)` (lines 153-165): compute the
checkpoint id, wait on the previous future, collect, start the async
save and store its future, collect, log.  The checkpoint id computation
comes first and raises `AttributeError` (see `create_checkpoint_id`),
aborting the call before anything else runs. -/
def CheckpointManager.save (self : CheckpointManager) (step : Int)
    (fid : Nat) : Except PyErr Unit × CheckpointManager × List Effect :=
  match self.create_checkpoint_id step with
  | Except.error e => (Except.error e, self, [])
  | Except.ok checkpoint_id =>
    let (s1, t1) := self.async_wait
    let t2 := mlutils.GarbageCollector.collect "GC collection invoked by checkpointer." 1
    let (fut, t3) := s1.dcp_save s1.states checkpoint_id false fid
    let s2 := { s1 with save_future := some fut }
    let t4 := mlutils.GarbageCollector.collect "GC collection invoked by checkpointer." 1
    (Except.ok (), s2, t1 ++ t2 ++ t3 ++ t4 ++ [Effect.logInfo])

/-- `CheckpointManager.load(checkpoint_id)` (lines 167-180): return
`False` at once when the path does not exist (`fs` is the set of
existing paths); otherwise log, run `dcp.load` on
`self._states_to_load()`, collect garbage, log, and return `True`.  No
attribute of `self` is reassigned. -/
def CheckpointManager.load (self : CheckpointManager) (fs : List PyPath)
    (checkpoint_id : PyPath) : Bool × CheckpointManager × List Effect :=
  if checkpoint_id ∈ fs then
    (true, self,
      [Effect.logInfo,
       Effect.dcpLoad (self.states_to_load false) checkpoint_id] ++
        mlutils.GarbageCollector.collect "GC collection invoked by checkpointer." 1 ++
        [Effect.logInfo])
  else (false, self, [])

/-- `ProfilingConfig` (src/mlutils_torch/profiling.py lines 12-15). -/
structure ProfilingConfig where
  enable : Bool
  trace_folder_path : PyPath
  frequency : Int
  deriving DecidableEq, Repr

/-- The `torch.profiler.profile` value the torch context manager yields:
the schedule parameters it was built with and the `step_num` assigned
before yielding.  `rank` is captured by the trace handler closure. -/
structure TorchProfiler where
  wait : Int
  warmup : Int
  active : Int
  step_num : Int
  rank : Int
  deriving DecidableEq, Repr

/-- `maybe_enable_profiling` (torch backend): yield `None` when profiling
is disabled; otherwise mkdir the trace folder (parents, exist_ok), log,
and yield a profiler built with `warmup, active = 3, 1` and
`wait = frequency - (active + warmup)`.  `rank` is the third-party
`dist.get_rank()`. -/
def maybe_enable_profiling (config : ProfilingConfig) (step : Int)
    (rank : Int) : List Effect × Option TorchProfiler :=
  if config.enable then
    let warmup : Int := 3
    let active : Int := 1
    ([Effect.mkdir config.trace_folder_path true true, Effect.logInfo],
     some { wait := config.frequency - (active + warmup)
            warmup := warmup
            active := active
            step_num := step
            rank := rank })
  else ([], none)

end mlutils_torch

namespace mlutils_jax

/-- `ProfilingConfig` (src/mlutils_jax/profiling.py lines 7-10). -/
structure ProfilingConfig where
  enable : Bool
  trace_folder_path : PyPath
  frequency : Int
  deriving DecidableEq, Repr

/-- The `jax.profiler.trace` value the jax context manager yields: the
log dir it was given. -/
structure JaxProfiler where
  log_dir : PyPath
  deriving DecidableEq, Repr

/-- `maybe_enable_profiling` (jax backend): yield `None` when disabled;
otherwise mkdir the trace folder (parents, exist_ok) and yield
`jax.profiler.trace(log_dir=trace_folder)`. -/
def maybe_enable_profiling (config : ProfilingConfig) (_ : Int) :
    List Effect × Option JaxProfiler :=
  if config.enable then
    ([Effect.mkdir config.trace_folder_path true true],
     some { log_dir := config.trace_folder_path })
  else ([], none)

end mlutils_jax

/-! ### Helper lemmas -/

theorem pySplit_ne_nil (sep : Char) (s : String) :
    mlutils.pySplit sep s ≠ [] := by
  simp only [mlutils.pySplit, List.splitOn, ne_eq, List.map_eq_nil_iff]
  exact List.splitOnP_ne_nil _ _

theorem dictGet_dictSet_self (c : PyDict) (k : String) (v : PyVal) :
    dictGet (dictSet c k v) k = some v := by
  induction c with
  | nil => simp [dictSet, dictGet]
  | cons kw rest ih =>
    obtain ⟨k1, w⟩ := kw
    by_cases h : k1 = k
    · subst h
      simp [dictSet, dictGet]
    · simp [dictSet, dictGet, h, ih]

theorem fmod_eq_zero_iff_dvd (a n : Int) (hn : n ≠ 0) :
    a.fmod n = 0 ↔ n ∣ a := by
  constructor
  · intro h
    have hf := Int.fdiv_add_fmod a n
    rw [h, add_zero] at hf
    exact ⟨a.fdiv n, hf.symm⟩
  · rintro ⟨k, rfl⟩
    have h1 := Int.mul_fdiv_cancel_left k hn
    have h2 := Int.fdiv_add_fmod (n * k) n
    rw [h1] at h2
    omega

theorem mergeOne_overwrites (c : PyDict) (p : List String) (v w : PyVal)
    (hlen : p.length ≤ 3) (hget : getPath c p = some w) :
    ∃ c1, mlutils.mergeOne c p v = Except.ok c1 ∧ getPath c1 p = some v := by
  match p with
  | [] => simp [getPath] at hget
  | [k0] =>
    refine ⟨dictSet c k0 v, rfl, ?_⟩
    simp [getPath, dictGet_dictSet_self]
  | [k0, k1] =>
    simp only [getPath] at hget
    split at hget
    case _ d hd =>
      refine ⟨dictSet c k0 (PyVal.dict (dictSet d k1 v)), ?_, ?_⟩
      · simp [mlutils.mergeOne, hd]
      · simp [getPath, dictGet_dictSet_self]
    case _ => exact absurd hget (by simp)
  | [k0, k1, k2] =>
    simp only [getPath] at hget
    split at hget
    case _ d hd =>
      split at hget
      case _ e he =>
        refine ⟨dictSet c k0
          (PyVal.dict (dictSet d k1 (PyVal.dict (dictSet e k2 v)))), ?_, ?_⟩
        · simp [mlutils.mergeOne, hd, he]
        · simp [getPath, dictGet_dictSet_self]
      case _ => exact absurd hget (by simp)
    case _ => exact absurd hget (by simp)
  | k0 :: k1 :: k2 :: k3 :: rest =>
    simp at hlen

theorem loadSchedLoop_eq (sd : mlutils_torch.SDObj)
    (l : List mlutils_torch.LRScheduler) (n : Nat) :
    mlutils_torch.loadSchedLoop sd l n =
      ((List.range l.length).map
        (fun i => { held := { oid := n + i, val := sd.val } }),
       n + l.length) := by
  induction l generalizing n with
  | nil => simp [mlutils_torch.loadSchedLoop]
  | cons s rest ih =>
    simp only [mlutils_torch.loadSchedLoop, mlutils_torch.deepcopy,
      mlutils_torch.LRScheduler.load_state_dict, ih, List.length_cons,
      List.range_succ_eq_map, List.map_cons, List.map_map]
    simp only [Prod.mk.injEq, List.cons.injEq, Nat.add_zero, Function.comp]
    refine ⟨⟨trivial, ?_⟩, by omega⟩
    apply List.map_congr_left
    intro i _
    show _ = mlutils_torch.LRScheduler.mk (mlutils_torch.SDObj.mk (n + Nat.succ i) sd.val)
    have h : n + 1 + i = n + Nat.succ i := by omega
    rw [h]

/-! ### Claim theorems -/

/-- C1: the claim says every `save(step)` first blocks on the previously
stored `save_future` (resetting it to `None`) before starting a new
asynchronous save and storing its future.  On the code this fails: every
`save` call raises `AttributeError` in `_create_checkpoint_id` (which
reads the never-assigned `self.folder`) before `_async_wait` runs, so a
manager with a stored future is neither waited on nor replaced, and no
asynchronous save is ever started: the call returns the error with the
manager unchanged and an empty effect trace. -/
theorem save_crashes_before_async_wait :
    mlutils_torch.CheckpointManager.save
      { (mlutils_torch.CheckpointManager.init ⟨["ckpt"], 10, false⟩).1 with
          save_future := some 0 } 5 1 =
    (Except.error PyErr.attributeError,
     { (mlutils_torch.CheckpointManager.init ⟨["ckpt"], 10, false⟩).1 with
          save_future := some 0 },
     []) ∧
    mlutils_torch.CheckpointManager.save
      (mlutils_torch.CheckpointManager.init ⟨["ckpt"], 10, false⟩).1 5 1 =
    (Except.error PyErr.attributeError,
     (mlutils_torch.CheckpointManager.init ⟨["ckpt"], 10, false⟩).1,
     []) :=
  ⟨rfl, rfl⟩

/-- C2: the claim says `_create_checkpoint_id(n)` returns the configured
checkpoint folder joined with `step-<n>` and that `save(n)` writes there.
On the code this fails: `__init__` stores the configured folder in
`self.folder_path`, but `_create_checkpoint_id` reads `self.folder`,
which no method assigns, so the call raises `AttributeError` instead of
returning a path (and `save` therefore writes nowhere). -/
theorem create_checkpoint_id_raises :
    ((mlutils_torch.CheckpointManager.init ⟨["ckpt2"], 10, false⟩).1).folder_path
      = ["ckpt2"] ∧
    ((mlutils_torch.CheckpointManager.init
        ⟨["ckpt2"], 10, false⟩).1).create_checkpoint_id 7 =
      Except.error PyErr.attributeError :=
  ⟨rfl, rfl⟩

/-- C3: `load(checkpoint_id)` returns `False`, leaves the manager (and in
particular the bundled states) unchanged and performs no effect when the
path does not exist; when it exists it returns `True`, leaves the
manager's attributes unchanged, and runs `dcp.load` on the bundled
states at that path. -/
theorem checkpoint_load_spec (self : mlutils_torch.CheckpointManager)
    (fs : List PyPath) (cid : PyPath) :
    (cid ∉ fs → self.load fs cid = (false, self, [])) ∧
    (cid ∈ fs →
      (self.load fs cid).1 = true ∧
      (self.load fs cid).2.1 = self ∧
      Effect.dcpLoad (self.states_to_load false) cid ∈ (self.load fs cid).2.2) := by
  constructor
  · intro h
    simp [mlutils_torch.CheckpointManager.load, h]
  · intro h
    simp [mlutils_torch.CheckpointManager.load, h,
      mlutils.GarbageCollector.collect]

/-- Witness for C3 at a concrete manager: a missing path gives
`(False, unchanged, no effects)`, an existing path gives `True`. -/
theorem checkpoint_load_spec_witness :
    mlutils_torch.CheckpointManager.load
      (mlutils_torch.CheckpointManager.init ⟨["out"], 5, false⟩).1 []
      ["out", "step-3"] =
      (false, (mlutils_torch.CheckpointManager.init ⟨["out"], 5, false⟩).1, []) ∧
    (mlutils_torch.CheckpointManager.load
      (mlutils_torch.CheckpointManager.init ⟨["out"], 5, false⟩).1
      [["out", "step-3"]] ["out", "step-3"]).1 = true :=
  ⟨(checkpoint_load_spec _ _ _).1 (by simp),
   ((checkpoint_load_spec _ _ _).2 (by simp)).1⟩

/-- C4: the bundled `self.states` dict holds exactly the key `"model"`
(mapped to the model container) when `config.model_only` is true, and
exactly `"model"`, `"optimizer"`, `"scheduler"` (mapped to the model,
optimizer and scheduler containers respectively, in that insertion
order) when it is false. -/
theorem checkpoint_states_bundle (config : mlutils_torch.CheckpointConfig) :
    (config.model_only = true →
      ((mlutils_torch.CheckpointManager.init config).1).states =
        [("model", ContainerSlot.model)]) ∧
    (config.model_only = false →
      ((mlutils_torch.CheckpointManager.init config).1).states =
        [("model", ContainerSlot.model),
         ("optimizer", ContainerSlot.optimizer),
         ("scheduler", ContainerSlot.scheduler)]) := by
  constructor <;> intro h <;> simp [mlutils_torch.CheckpointManager.init, h]

/-- Witness for C4 at concrete configs of both polarities. -/
theorem checkpoint_states_bundle_witness :
    ((mlutils_torch.CheckpointManager.init ⟨["w4"], 2, true⟩).1).states =
      [("model", ContainerSlot.model)] ∧
    ((mlutils_torch.CheckpointManager.init ⟨["w4"], 2, false⟩).1).states =
      [("model", ContainerSlot.model),
       ("optimizer", ContainerSlot.optimizer),
       ("scheduler", ContainerSlot.scheduler)] :=
  ⟨(checkpoint_states_bundle _).1 rfl, (checkpoint_states_bundle _).2 rfl⟩

/-- C5: the claim says every `save` collects garbage immediately before
and after starting the asynchronous save, and every successful `load`
collects garbage after loading.  The `load` half holds, but on the code
the `save` half fails: `save` raises `AttributeError` (never-assigned
`self.folder` read by `_create_checkpoint_id`) before reaching either
garbage collection, so its effect trace is empty. -/
theorem checkpoint_gc_hygiene :
    mlutils_torch.CheckpointManager.save
      (mlutils_torch.CheckpointManager.init ⟨["ckpt5"], 10, false⟩).1 0 3 =
      (Except.error PyErr.attributeError,
       (mlutils_torch.CheckpointManager.init ⟨["ckpt5"], 10, false⟩).1, []) ∧
    Effect.gcCollect 1 ∈
      (mlutils_torch.CheckpointManager.load
        (mlutils_torch.CheckpointManager.init ⟨["ckpt5"], 10, false⟩).1
        [["ckpt5", "step-0"]] ["ckpt5", "step-0"]).2.2 :=
  ⟨rfl, by decide⟩

/-- C6: merging a command-line argument whose dotted key path has depth
at most three into the dict parsed from the TOML file overwrites the
value the file put at that same key path: `load_config` succeeds and the
merged dict holds the parsed command-line value there. -/
theorem load_config_cli_overwrites (config : PyDict) (pcs : String → PyVal)
    (u vstr : String) (w : PyVal)
    (hlen : (mlutils.pySplit '.' (u.drop 2)).length ≤ 3)
    (hget : getPath config (mlutils.pySplit '.' (u.drop 2)) = some w) :
    ∃ c1, mlutils.load_config config [] [u, vstr] pcs = Except.ok c1 ∧
      getPath c1 (mlutils.pySplit '.' (u.drop 2)) = some (pcs vstr) := by
  obtain ⟨c1, hm, hg⟩ :=
    mergeOne_overwrites config (mlutils.pySplit '.' (u.drop 2)) (pcs vstr) w
      hlen hget
  refine ⟨c1, ?_, hg⟩
  simp [mlutils.load_config, mlutils.pairUp, mlutils.mergeArgs, hm]

/-- Witness for C6: `--optim.lr 0.1` overwrites the file value at
`optim.lr`. -/
theorem load_config_cli_overwrites_witness :
    ∃ c1, mlutils.load_config [("optim", PyVal.dict [("lr", PyVal.int 1)])] []
        ["--optim.lr", "0.1"] (fun s => PyVal.str s) = Except.ok c1 ∧
      getPath c1 (mlutils.pySplit '.' ("--optim.lr".drop 2)) =
        some (PyVal.str "0.1") :=
  load_config_cli_overwrites _ _ _ _ (PyVal.int 1) (by decide) (by rfl)

/-- C7: both backends' `maybe_enable_profiling` yield `None` with no
effects (in particular no trace-folder creation) when `config.enable` is
false, and create the configured trace folder (with parents) and yield a
profiler value when it is true. -/
theorem maybe_enable_profiling_spec (ct : mlutils_torch.ProfilingConfig)
    (cj : mlutils_jax.ProfilingConfig) (step rank : Int) :
    (ct.enable = false →
      mlutils_torch.maybe_enable_profiling ct step rank = ([], none)) ∧
    (ct.enable = true →
      Effect.mkdir ct.trace_folder_path true true ∈
        (mlutils_torch.maybe_enable_profiling ct step rank).1 ∧
      ∃ p, (mlutils_torch.maybe_enable_profiling ct step rank).2 = some p) ∧
    (cj.enable = false →
      mlutils_jax.maybe_enable_profiling cj step = ([], none)) ∧
    (cj.enable = true →
      Effect.mkdir cj.trace_folder_path true true ∈
        (mlutils_jax.maybe_enable_profiling cj step).1 ∧
      ∃ p, (mlutils_jax.maybe_enable_profiling cj step).2 = some p) := by
  refine ⟨?_, ?_, ?_, ?_⟩ <;> intro h <;>
    simp [mlutils_torch.maybe_enable_profiling,
      mlutils_jax.maybe_enable_profiling, h]

/-- Witness for C7: enabled torch profiling creates the folder and
yields a profiler; disabled jax profiling yields `None` with no
effects. -/
theorem maybe_enable_profiling_spec_witness :
    (Effect.mkdir ["traces"] true true ∈
      (mlutils_torch.maybe_enable_profiling ⟨true, ["traces"], 10⟩ 0 0).1 ∧
     ∃ p, (mlutils_torch.maybe_enable_profiling ⟨true, ["traces"], 10⟩ 0 0).2
        = some p) ∧
    mlutils_jax.maybe_enable_profiling ⟨false, ["tj"], 10⟩ 0 = ([], none) :=
  ⟨(maybe_enable_profiling_spec ⟨true, ["traces"], 10⟩ ⟨false, ["tj"], 10⟩
      0 0).2.1 rfl,
   (maybe_enable_profiling_spec ⟨true, ["traces"], 10⟩ ⟨false, ["tj"], 10⟩
      0 0).2.2.1 rfl⟩

/-- C8: for a single merged command-line argument, `load_config` raises
`ValueError("Maximum key depth is 3.")` exactly when the argument's key
(after stripping the leading `--`) splits into more than three
dot-separated components; with at most three components that error is
never raised (the merge either succeeds or fails an inner-dict
assertion, which is an `AssertionError`, not a `ValueError`). -/
theorem load_config_value_error_iff_depth (config : PyDict)
    (pcs : String → PyVal) (u vstr : String) :
    mlutils.load_config config [] [u, vstr] pcs =
      Except.error (PyErr.valueError "Maximum key depth is 3.") ↔
    3 < (mlutils.pySplit '.' (u.drop 2)).length := by
  have hp := pySplit_ne_nil '.' (u.drop 2)
  rw [show mlutils.load_config config [] [u, vstr] pcs =
    mlutils.mergeArgs config [(mlutils.pySplit '.' (u.drop 2), pcs vstr)]
    from rfl]
  rcases hsplit : mlutils.pySplit '.' (u.drop 2) with _ | ⟨k0, rest0⟩
  · exact absurd hsplit hp
  · rcases rest0 with _ | ⟨k1, rest1⟩
    · simp [mlutils.mergeArgs, mlutils.mergeOne]
    · rcases rest1 with _ | ⟨k2, rest2⟩
      · rcases hdg : dictGet config k0 with _ | x
        · simp [mlutils.mergeArgs, mlutils.mergeOne, hdg]
        · cases x <;> simp [mlutils.mergeArgs, mlutils.mergeOne, hdg]
      · rcases rest2 with _ | ⟨k3, rest3⟩
        · rcases hdg : dictGet config k0 with _ | x
          · simp [mlutils.mergeArgs, mlutils.mergeOne, hdg]
          · cases x with
            | int n => simp [mlutils.mergeArgs, mlutils.mergeOne, hdg]
            | str s => simp [mlutils.mergeArgs, mlutils.mergeOne, hdg]
            | bool b => simp [mlutils.mergeArgs, mlutils.mergeOne, hdg]
            | dict d =>
              rcases hdg2 : dictGet d k1 with _ | y
              · simp [mlutils.mergeArgs, mlutils.mergeOne, hdg, hdg2]
              · cases y <;>
                  simp [mlutils.mergeArgs, mlutils.mergeOne, hdg, hdg2]
        · have hme : mlutils.mergeArgs config
              [((k0 :: k1 :: k2 :: k3 :: rest3 : List String), pcs vstr)] =
              Except.error (PyErr.valueError "Maximum key depth is 3.") := rfl
          simp only [hme, List.length_cons]
          constructor
          · intro _
            omega
          · intro _
            trivial

/-- C9: `SchedulerContainer.state_dict` returns the first scheduler's
state dict when the list is non-empty and the empty dict when it is
empty, and `SchedulerContainer.load_state_dict` hands every scheduler an
independent deep copy of the given state dict: each scheduler ends up
holding the dict's value in a fresh object (allocation ids `n + i`),
these objects are pairwise distinct, and none of them is the passed-in
object. -/
theorem scheduler_container_spec (c : mlutils_torch.SchedulerContainer)
    (sd : mlutils_torch.SDObj) (n : Nat) (hfresh : sd.oid < n) :
    c.state_dict =
      c.schedulers.head?.elim (PyVal.dict []) (fun s => s.state_dict) ∧
    (c.load_state_dict sd n).1.schedulers =
      (List.range c.schedulers.length).map
        (fun i => { held := { oid := n + i, val := sd.val } }) ∧
    sd.oid ∉
      ((c.load_state_dict sd n).1.schedulers.map (fun s => s.held.oid)) ∧
    (((c.load_state_dict sd n).1.schedulers.map
        (fun s => s.held.oid)).Nodup) := by
  have hload := loadSchedLoop_eq sd c.schedulers n
  refine ⟨?_, ?_, ?_, ?_⟩
  · cases h : c.schedulers with
    | nil => simp [mlutils_torch.SchedulerContainer.state_dict, h]
    | cons s rest => simp [mlutils_torch.SchedulerContainer.state_dict, h]
  · simp [mlutils_torch.SchedulerContainer.load_state_dict, hload]
  · simp only [mlutils_torch.SchedulerContainer.load_state_dict, hload]
    simp only [List.map_map, List.mem_map, List.mem_range, Function.comp]
    rintro ⟨i, hi, hoid⟩
    omega
  · simp only [mlutils_torch.SchedulerContainer.load_state_dict, hload]
    rw [List.map_map]
    refine List.Nodup.map ?_ (List.nodup_range _)
    intro a b hab
    simp [Function.comp] at hab
    omega

/-- Witness for C9 at a concrete container of two schedulers. -/
theorem scheduler_container_spec_witness :
    ((mlutils_torch.SchedulerContainer.mk
        [⟨⟨0, PyVal.dict []⟩⟩, ⟨⟨1, PyVal.dict []⟩⟩]).load_state_dict
        ⟨2, PyVal.int 7⟩ 3).1.schedulers =
      (List.range 2).map (fun i => ⟨⟨3 + i, PyVal.int 7⟩⟩) ∧
    (2 : Nat) ∉
      (((mlutils_torch.SchedulerContainer.mk
          [⟨⟨0, PyVal.dict []⟩⟩, ⟨⟨1, PyVal.dict []⟩⟩]).load_state_dict
          ⟨2, PyVal.int 7⟩ 3).1.schedulers.map (fun s => s.held.oid)) :=
  ⟨(scheduler_container_spec _ _ _ (by decide)).2.1,
   (scheduler_container_spec _ _ _ (by decide)).2.2.1⟩

/-- C10 counterexample: a `GarbageCollector` can be constructed with
interval 0, and then `run(0)` raises `ZeroDivisionError` even though 0
is a multiple of the configured interval, so it neither triggers the
collection the claim requires nor does nothing. -/
theorem gc_run_interval_zero_counterexample :
    ((0 : Int) ∣ (0 : Int)) ∧
    ((mlutils.GarbageCollector.init 0).1).run 0 =
      Except.error PyErr.zeroDivisionError :=
  ⟨dvd_refl 0, rfl⟩

/-- C10 (amended to nonzero intervals): constructing a
`GarbageCollector` disables automatic garbage collection, and for a
nonzero configured interval `run(step)` triggers a generation-1
collection exactly when `step` is a multiple of the interval and does
nothing otherwise. -/
theorem gc_run_spec (interval step : Int) (h : interval ≠ 0) :
    (mlutils.GarbageCollector.init interval).2 = [Effect.gcDisable] ∧
    ((mlutils.GarbageCollector.init interval).1).run step =
      Except.ok (if interval ∣ step then [Effect.gcCollect 1, Effect.logInfo]
                 else []) := by
  refine ⟨rfl, ?_⟩
  simp only [mlutils.GarbageCollector.run, mlutils.GarbageCollector.init,
    pyMod, if_neg h, mlutils.GarbageCollector.collect]
  by_cases hd : interval ∣ step
  · rw [if_pos ((fmod_eq_zero_iff_dvd step interval h).2 hd), if_pos hd]
  · rw [if_neg fun hz => hd ((fmod_eq_zero_iff_dvd step interval h).1 hz),
      if_neg hd]

/-- Witness for C10 at the default interval 1000 and a multiple step. -/
theorem gc_run_spec_witness :
    (mlutils.GarbageCollector.init 1000).2 = [Effect.gcDisable] ∧
    ((mlutils.GarbageCollector.init 1000).1).run 2000 =
      Except.ok (if (1000 : Int) ∣ 2000 then
          [Effect.gcCollect 1, Effect.logInfo]
        else []) :=
  gc_run_spec 1000 2000 (by decide)
